import Mathlib

/-!
Shallow embedding of the connection-lifecycle core of the
`bluetooth_audio_receiver` repository (`src/bluetooth_receiver.rs` and the
command worker of `src/main.rs`).

Platform calls (WinRT / Win32) are modelled by an environment record of
booleans saying whether each fallible platform call succeeds, plus the
platform-reported status enums.  State mutation of the `BTReceiver` struct is
modelled by explicit state passing; observable side effects (flag stores,
task spawns, anchor stop/close, log lines) are collected in an event trace.
-/

namespace BTAudio

/-- A device identifier (an `HSTRING` in the source). -/
abbrev DeviceId := String

/-- The platform `DeviceInformation` object.  Its `Id()` accessor is a
fallible platform call (`device.info.Id()?` at line 38); `idResult = none`
models that call failing. -/
structure DeviceInformation where
  idResult : Option DeviceId
  deriving DecidableEq, Repr

/-- `BTDevice` from `bluetooth_receiver.rs` lines 11-15. -/
structure BTDevice where
  name : String
  info : DeviceInformation
  deriving DecidableEq, Repr

/-- An `AudioPlaybackConnection`, remembered by the identifier it was
created from (`TryCreateFromId(id)`, line 54). -/
structure AudioPlaybackConnection where
  id : DeviceId
  deriving DecidableEq, Repr

/-- The `AudioGraph` anchor resource; its platform content is irrelevant to
the claims, only whether the receiver holds one. -/
abbrev AudioGraph := Unit

/-- The MMCSS `HANDLE` (priority boost); only presence matters. -/
abbrev HANDLE := Unit

/-- `AudioPlaybackConnectionOpenResultStatus` (line 58). -/
inductive OpenStatus
  | success
  | requestTimedOut
  | deniedBySystem
  | unknownFailure
  deriving DecidableEq, Repr

/-- Which platform call inside `prevent_sleep_with_anchor` (lines 113-137)
failed, when one fails. -/
inductive AnchorError
  | settingsCreateFailed
  | quantumModeFailed
  | createAsyncFailed
  | graphGetFailed
  | outputNodeAsyncFailed
  | outputStatusCallFailed
  | deviceOutputNodeFailed
  | frameInputFailed
  | addConnectionFailed
  | setGainFailed
  | graphStartFailed
  deriving DecidableEq, Repr

/-- The `anyhow::Error` values that `connect`/`reconnect`/`perform_connect`
can return, one constructor per distinct error source in the code.
`wrapped` is the `.context("...")` wrapper added by `reconnect` (line 48);
`deviceIdFailed` is `device.info.Id()?` failing (line 38); `idMissing` is
the "ID not found" error of line 53. -/
inductive ConnectError
  | deviceIdFailed
  | idMissing
  | tryCreateFailed
  | connStartFailed
  | openAsyncFailed
  | statusCallFailed
  | openFailed (st : OpenStatus)
  | anchor (e : AnchorError)
  | wrapped (e : ConnectError)
  deriving DecidableEq, Repr

/-- `true` exactly for the errors raised by a failing platform call of
lines 54-59 (create / start / open / status), i.e. before the connection is
stored: on these paths `perform_connect` has not mutated the receiver. -/
def ConnectError.preAnchor : ConnectError → Bool
  | .tryCreateFailed => true
  | .connStartFailed => true
  | .openAsyncFailed => true
  | .statusCallFailed => true
  | .openFailed _ => true
  | _ => false

/-- Observable side effects of receiver operations:
`setMonitoring b` is `is_monitoring.store(b, SeqCst)`; `spawnMonitor` is the
`tokio::spawn` of a new heartbeat task (line 91); `graphStop`/`graphClose`
are `graph.Stop()` / `graph.Close()` (lines 157-158); `logLine` is a
`println!`. -/
inductive Ev
  | setMonitoring (b : Bool)
  | spawnMonitor
  | graphStop
  | graphClose
  | logLine (tag : String)
  deriving DecidableEq, Repr

/-- The `BTReceiver` struct (lines 17-24).  `is_monitoring` is the value of
the shared `Arc<AtomicBool>` cancellation flag. -/
structure BTReceiver where
  connection : Option AudioPlaybackConnection
  graph : Option AudioGraph
  is_monitoring : Bool
  device_id : Option DeviceId
  avrt_handle : Option HANDLE
  deriving DecidableEq, Repr

/-- `BTReceiver::new` (lines 27-35). -/
def BTReceiver.new : BTReceiver :=
  { connection := none, graph := none, is_monitoring := false,
    device_id := none, avrt_handle := none }

/-- Success/failure of each fallible platform call inside
`prevent_sleep_with_anchor` (lines 113-137), in source order. -/
structure AnchorEnv where
  settingsOk : Bool
  quantumOk : Bool
  createOk : Bool
  graphGetOk : Bool
  outNodeCallOk : Bool
  outStatusCallOk : Bool
  outNodeSuccess : Bool
  devOutOk : Bool
  frameInOk : Bool
  addConnOk : Bool
  gainOk : Bool
  startOk : Bool
  deriving DecidableEq, Repr

/-- Success/failure of each fallible platform call inside
`perform_connect` (lines 52-80), in source order, together with the
environment of the nested anchor acquisition and of the best-effort
`AvSetMmThreadCharacteristicsW` call. -/
structure ConnectEnv where
  tryCreateOk : Bool
  connStartOk : Bool
  openCallOk : Bool
  statusCallOk : Bool
  openStatus : OpenStatus
  anchor : AnchorEnv
  avrtOk : Bool
  deriving DecidableEq, Repr

/-- `BTReceiver::prevent_sleep_with_anchor` (lines 113-137).  Every `?` is a
potential early error return leaving the struct unchanged; when the output
node's creation status is not `Success` the node wiring is merely skipped
(no bail, lines 122-132); `self.graph` is assigned only after `graph.Start()`
succeeds (lines 134-135). -/
def prevent_sleep_with_anchor (s : BTReceiver) (env : AnchorEnv) :
    Except AnchorError Unit × BTReceiver :=
  if env.settingsOk = false then (Except.error AnchorError.settingsCreateFailed, s)
  else if env.quantumOk = false then (Except.error AnchorError.quantumModeFailed, s)
  else if env.createOk = false then (Except.error AnchorError.createAsyncFailed, s)
  else if env.graphGetOk = false then (Except.error AnchorError.graphGetFailed, s)
  else if env.outNodeCallOk = false then (Except.error AnchorError.outputNodeAsyncFailed, s)
  else if env.outStatusCallOk = false then (Except.error AnchorError.outputStatusCallFailed, s)
  else if env.outNodeSuccess then
    if env.devOutOk = false then (Except.error AnchorError.deviceOutputNodeFailed, s)
    else if env.frameInOk = false then (Except.error AnchorError.frameInputFailed, s)
    else if env.addConnOk = false then (Except.error AnchorError.addConnectionFailed, s)
    else if env.gainOk = false then (Except.error AnchorError.setGainFailed, s)
    else if env.startOk = false then (Except.error AnchorError.graphStartFailed, s)
    else (Except.ok (), { s with graph := some () })
  else
    if env.startOk = false then (Except.error AnchorError.graphStartFailed, s)
    else (Except.ok (), { s with graph := some () })

/-- `BTReceiver::start_heartbeat_monitor` (lines 82-111): stores `false`
then immediately `true` into the one shared flag, then spawns a new monitor
task.  Only the flag value and the trace matter here; the spawned task's
tick behaviour is modelled by `monitorRun` below and its task identity by
`MonSys`. -/
def start_heartbeat_monitor (s : BTReceiver) : BTReceiver × List Ev :=
  ({ s with is_monitoring := true },
   [Ev.setMonitoring false, Ev.setMonitoring true, Ev.spawnMonitor])

/-- `BTReceiver::disconnect` (lines 152-165): store `false` into the flag,
`take` the graph and stop-then-close it if present, drop the connection and
the MMCSS handle.  Note: `device_id` is NOT touched. -/
def disconnect (s : BTReceiver) : BTReceiver × List Ev :=
  let s1 : BTReceiver := { s with is_monitoring := false }
  match s1.graph with
  | some _ =>
      ({ s1 with graph := none, connection := none, avrt_handle := none },
       [Ev.setMonitoring false, Ev.graphStop, Ev.graphClose, Ev.logLine "[DISCONN]"])
  | none =>
      ({ s1 with connection := none, avrt_handle := none },
       [Ev.setMonitoring false, Ev.logLine "[DISCONN]"])

/-- `BTReceiver::perform_connect` (lines 52-80).  Fallible platform steps in
source order; `self.connection` is assigned as soon as the open succeeds
(line 63), BEFORE the anchor acquisition, the monitor start and the
best-effort MMCSS call; on MMCSS failure `avrt_handle` is left unchanged. -/
def perform_connect (s : BTReceiver) (env : ConnectEnv) :
    Except ConnectError Unit × BTReceiver × List Ev :=
  match s.device_id with
  | none => (Except.error ConnectError.idMissing, s, [])
  | some id =>
    if env.tryCreateOk = false then (Except.error ConnectError.tryCreateFailed, s, [])
    else if env.connStartOk = false then (Except.error ConnectError.connStartFailed, s, [])
    else if env.openCallOk = false then (Except.error ConnectError.openAsyncFailed, s, [])
    else if env.statusCallOk = false then (Except.error ConnectError.statusCallFailed, s, [])
    else if env.openStatus ≠ OpenStatus.success then
      (Except.error (ConnectError.openFailed env.openStatus), s, [])
    else
      let s1 : BTReceiver := { s with connection := some { id := id } }
      match prevent_sleep_with_anchor s1 env.anchor with
      | (Except.error e, s2) =>
          (Except.error (ConnectError.anchor e), s2, [Ev.logLine "[CONN]"])
      | (Except.ok _, s2) =>
          let p := start_heartbeat_monitor s2
          let s3 : BTReceiver :=
            if env.avrtOk then { p.1 with avrt_handle := some () } else p.1
          (Except.ok (), s3, Ev.logLine "[CONN]" :: p.2)

/-- `BTReceiver::connect` (lines 37-42): resolve `device.info.Id()?`, store
it in `device_id`, then run `perform_connect`. -/
def connect (s : BTReceiver) (d : BTDevice) (env : ConnectEnv) :
    Except ConnectError Unit × BTReceiver × List Ev :=
  match d.info.idResult with
  | none => (Except.error ConnectError.deviceIdFailed, s, [])
  | some id =>
    let s1 : BTReceiver := { s with device_id := some id }
    let r := perform_connect s1 env
    (r.1, r.2.1, Ev.logLine ("[INIT] connect " ++ d.name) :: r.2.2)

/-- `BTReceiver::reconnect` (lines 44-50): `disconnect()` then
`perform_connect()` with the PREVIOUSLY stored `device_id` (the `device`
argument's identifier is not stored; only its name is printed), wrapping
any error with the reconnect context. -/
def reconnect (s : BTReceiver) (d : BTDevice) (env : ConnectEnv) :
    Except ConnectError Unit × BTReceiver × List Ev :=
  let pd := disconnect s
  let r := perform_connect pd.1 env
  match r.1 with
  | Except.error e =>
      (Except.error (ConnectError.wrapped e), r.2.1,
       Ev.logLine ("[INIT] reconnect " ++ d.name) :: (pd.2 ++ r.2.2))
  | Except.ok _ =>
      (Except.ok (), r.2.1,
       Ev.logLine ("[INIT] reconnect " ++ d.name) :: (pd.2 ++ r.2.2))

/-! ### The heartbeat monitor's tick loop (lines 91-110)

One loop iteration: increment `tick`; if `TryCreateFromId(id)` succeeds,
issue `conn.Start()` (the lightweight keepalive) and, when `tick % 15 == 0`,
additionally issue `conn.OpenAsync()` (the heavy keepalive); if the create
fails, the iteration issues nothing.  All results are discarded (`let _ =`).
`createOk k` says whether `TryCreateFromId` succeeds on the iteration whose
tick value is `k`. -/

/-- A keepalive call issued by the monitor: `light` is `conn.Start()`
(line 100), `heavy` is `conn.OpenAsync()` (line 103). -/
inductive KeepAct
  | light
  | heavy
  deriving DecidableEq, Repr

/-- The keepalive calls issued on the iteration with tick value `tick`
(lines 98-106). -/
def monitorTick (createOk : Nat → Bool) (tick : Nat) : List KeepAct :=
  if createOk tick then
    if tick % 15 == 0 then [KeepAct.light, KeepAct.heavy] else [KeepAct.light]
  else []

/-- The keepalive calls issued by a monitor that runs `T` full intervals
without observing cancellation: the loop body runs with tick values
`1, 2, ..., T` (tick starts at `0` and is incremented at the top of the
body, line 96). -/
def monitorRun (createOk : Nat → Bool) : Nat → List KeepAct
  | 0 => []
  | T + 1 => monitorRun createOk T ++ monitorTick createOk (T + 1)

/-- Number of heavy keepalives issued in `T` intervals. -/
def heavyCount (createOk : Nat → Bool) (T : Nat) : Nat :=
  (monitorRun createOk T).count KeepAct.heavy

/-! ### Monitor-task identity (for the one-live-monitor invariant)

`start_heartbeat_monitor` (lines 82-91) stores `false` and then immediately
`true` into the ONE shared `Arc<AtomicBool>` — the `Arc` is cloned, never
replaced — and then spawns a new task; `disconnect` (line 154) stores
`false`.  A spawned monitor task re-reads the shared flag only at the top
of each loop iteration, after its 2-second sleep, and exits when it reads
`false`.  `MonSys` records the flag value and, per spawned task, whether it
is still looping; steps correspond to the code's flag operations and to one
monitor waking up and checking the flag.  `sigStartMonitor` performs the
two adjacent stores and the spawn as the worker task executes them, with no
await point in between (a legal schedule). -/

/-- Shared flag plus the liveness of each spawned monitor task (`true` =
still in its `while` loop). -/
structure MonSys where
  flag : Bool
  tasks : List Bool
  deriving DecidableEq, Repr

/-- System state at process start: flag `false` (line 31), no tasks. -/
def MonSys.init : MonSys := { flag := false, tasks := [] }

/-- Effect of `start_heartbeat_monitor` on the shared flag and task set:
`store(false)`; `store(true)`; spawn a fresh looping task (lines 84-91). -/
def sigStartMonitor (m : MonSys) : MonSys :=
  { flag := true, tasks := m.tasks ++ [true] }

/-- Effect of `disconnect`'s cancellation signal (line 154). -/
def sigStopMonitor (m : MonSys) : MonSys :=
  { flag := false, tasks := m.tasks }

/-- Monitor task `i` wakes and evaluates its `while is_monitoring.load()`
condition (line 95): it stays live iff it was live and the flag is `true`. -/
def taskCheck (m : MonSys) (i : Nat) : MonSys :=
  { flag := m.flag, tasks := m.tasks.set i ((m.tasks.getD i false) && m.flag) }

/-- States of the flag/task system reachable by the code's operations
interleaved with monitor wake-ups. -/
inductive MonReach : MonSys → Prop
  | init : MonReach MonSys.init
  | start {m} : MonReach m → MonReach (sigStartMonitor m)
  | stop {m} : MonReach m → MonReach (sigStopMonitor m)
  | check {m} (i : Nat) : MonReach m → MonReach (taskCheck m i)

/-- Number of monitor tasks still looping. -/
def liveCount (m : MonSys) : Nat := m.tasks.count true

/-! ### The command worker (`background_worker`, `main.rs` lines 163-205) -/

/-- `AppCommand` (`main.rs` lines 27-32). -/
inductive AppCommand
  | Connect (name : String)
  | Disconnect
  | Scan
  | Reconnect (name : String)
  deriving DecidableEq, Repr

/-- What the worker observably emits while handling one command: events sent
on the device-list and connection-status queues, plus any log lines printed
on the way. -/
inductive WEv
  | deviceList (names : List String)
  | statusEvent (v : Option String)
  | log (tag : String)
  deriving DecidableEq, Repr

/-- Environment for one worker iteration: the result of the fresh
`list_devices()` call it performs (`none` = the platform query failed) and
the platform environment for a connect attempt. -/
structure WorkerEnv where
  listResult : Option (List BTDevice)
  connectEnv : ConnectEnv
  deriving Repr

/-- The receiver's log lines, as worker-level observations. -/
def evLogs (evs : List Ev) : List WEv :=
  evs.filterMap (fun e =>
    match e with
    | Ev.logLine t => some (WEv.log t)
    | _ => none)

/-- One iteration of `background_worker`'s loop (`main.rs` lines 176-202):
dispatch one command.  `Connect`/`Reconnect` re-list devices
(`unwrap_or_default`), linearly scan for the display name, and do nothing
at all when no device matches (no log line, no event); the status event is
sent only after a successful connect.  `Disconnect` always sends
`ConnectionStatus(None)`. -/
def workerStep (s : BTReceiver) (cmd : AppCommand) (env : WorkerEnv) :
    BTReceiver × List WEv :=
  match cmd with
  | AppCommand.Scan =>
      match env.listResult with
      | some devs => (s, [WEv.deviceList (devs.map BTDevice.name)])
      | none => (s, [])
  | AppCommand.Connect name =>
      let devs := env.listResult.getD []
      match devs.find? (fun d => d.name == name) with
      | some target =>
          let r := connect s target env.connectEnv
          match r.1 with
          | Except.ok _ => (r.2.1, evLogs r.2.2 ++ [WEv.statusEvent (some name)])
          | Except.error _ => (r.2.1, evLogs r.2.2)
      | none => (s, [])
  | AppCommand.Disconnect =>
      let p := disconnect s
      (p.1, evLogs p.2 ++ [WEv.statusEvent none])
  | AppCommand.Reconnect name =>
      let devs := env.listResult.getD []
      match devs.find? (fun d => d.name == name) with
      | some target =>
          let r := reconnect s target env.connectEnv
          match r.1 with
          | Except.ok _ => (r.2.1, evLogs r.2.2 ++ [WEv.statusEvent (some name)])
          | Except.error _ => (r.2.1, evLogs r.2.2)
      | none => (s, [])

/-- The worker processing a list of commands in FIFO order, each under its
own platform environment, concatenating the emitted events. -/
def workerRun (s : BTReceiver) :
    List (AppCommand × WorkerEnv) → BTReceiver × List WEv
  | [] => (s, [])
  | (c, e) :: rest =>
      let p := workerStep s c e
      let q := workerRun p.1 rest
      (q.1, p.2 ++ q.2)

/-! ### Concrete fixtures used by counterexamples and witnesses -/

/-- A device whose `Id()` call succeeds with identifier `"idA"`. -/
def devA : BTDevice := { name := "Speaker-A", info := { idResult := some "idA" } }

/-- A second device, identifier `"idB"`. -/
def devB : BTDevice := { name := "Speaker-B", info := { idResult := some "idB" } }

/-- An anchor environment in which every platform call succeeds. -/
def anchorAllOk : AnchorEnv :=
  { settingsOk := true, quantumOk := true, createOk := true, graphGetOk := true,
    outNodeCallOk := true, outStatusCallOk := true, outNodeSuccess := true,
    devOutOk := true, frameInOk := true, addConnOk := true, gainOk := true,
    startOk := true }

/-- A connect environment in which every platform call succeeds. -/
def envAllOk : ConnectEnv :=
  { tryCreateOk := true, connStartOk := true, openCallOk := true,
    statusCallOk := true, openStatus := OpenStatus.success,
    anchor := anchorAllOk, avrtOk := true }

/-- Every platform call succeeds except the final `graph.Start()` of the
anchor acquisition — i.e. the anchor step fails after the platform open of
the connection has already succeeded. -/
def envAnchorFail : ConnectEnv :=
  { envAllOk with anchor := { anchorAllOk with startOk := false } }

/-- `AudioPlaybackConnection::TryCreateFromId` fails. -/
def envTryFail : ConnectEnv := { envAllOk with tryCreateOk := false }

/-- A receiver currently connected to the device with identifier `"idB"`,
holding the anchor graph, the MMCSS handle and a running monitor. -/
def sConnB : BTReceiver :=
  { connection := some { id := "idB" }, graph := some (),
    is_monitoring := true, device_id := some "idB", avrt_handle := some () }

/-- A worker environment whose fresh directory listing returns
`Speaker-A` and `Speaker-B`. -/
def wenvAB : WorkerEnv := { listResult := some [devA, devB], connectEnv := envAllOk }

/-- Is a worker observation a log line? -/
def isLogEv : WEv → Bool
  | WEv.log _ => true
  | _ => false

/-- Number of `ConnectionStatus(None)` events in a worker observation
stream. -/
def countNoneStatus : List WEv → Nat
  | [] => 0
  | WEv.statusEvent none :: rest => countNoneStatus rest + 1
  | _ :: rest => countNoneStatus rest

/-! ### Structure lemmas for the receiver operations -/

/-- The receiver state reached by a fully successful `perform_connect` from
`s` with stored identifier `i`. -/
def connectedState (s : BTReceiver) (i : DeviceId) (avrtOk : Bool) : BTReceiver :=
  { connection := some { id := i }, graph := some (), is_monitoring := true,
    device_id := some i,
    avrt_handle := if avrtOk then some () else s.avrt_handle }

lemma disconnect_fst (s : BTReceiver) :
    (disconnect s).1 =
      { s with connection := none, graph := none, is_monitoring := false,
               avrt_handle := none } := by
  cases h : s.graph <;> simp [disconnect, h]

lemma disconnect_snd (s : BTReceiver) :
    (disconnect s).2 =
      if s.graph = some () then
        [Ev.setMonitoring false, Ev.graphStop, Ev.graphClose, Ev.logLine "[DISCONN]"]
      else
        [Ev.setMonitoring false, Ev.logLine "[DISCONN]"] := by
  cases h : s.graph <;> simp [disconnect, h]

lemma prevent_sleep_spec (s : BTReceiver) (env : AnchorEnv) :
    (∃ a, prevent_sleep_with_anchor s env = (Except.error a, s)) ∨
    prevent_sleep_with_anchor s env = (Except.ok (), { s with graph := some () }) := by
  obtain ⟨e1, e2, e3, e4, e5, e6, e7, e8, e9, e10, e11, e12⟩ := env
  cases e1 with
  | false => exact Or.inl ⟨_, rfl⟩
  | true =>
  cases e2 with
  | false => exact Or.inl ⟨_, rfl⟩
  | true =>
  cases e3 with
  | false => exact Or.inl ⟨_, rfl⟩
  | true =>
  cases e4 with
  | false => exact Or.inl ⟨_, rfl⟩
  | true =>
  cases e5 with
  | false => exact Or.inl ⟨_, rfl⟩
  | true =>
  cases e6 with
  | false => exact Or.inl ⟨_, rfl⟩
  | true =>
  cases e7 with
  | false =>
    cases e12 with
    | false => exact Or.inl ⟨_, rfl⟩
    | true => exact Or.inr rfl
  | true =>
  cases e8 with
  | false => exact Or.inl ⟨_, rfl⟩
  | true =>
  cases e9 with
  | false => exact Or.inl ⟨_, rfl⟩
  | true =>
  cases e10 with
  | false => exact Or.inl ⟨_, rfl⟩
  | true =>
  cases e11 with
  | false => exact Or.inl ⟨_, rfl⟩
  | true =>
  cases e12 with
  | false => exact Or.inl ⟨_, rfl⟩
  | true => exact Or.inr rfl

lemma perform_connect_spec (s : BTReceiver) (env : ConnectEnv) :
    (s.device_id = none ∧
       perform_connect s env = (Except.error ConnectError.idMissing, s, [])) ∨
    (∃ i e, s.device_id = some i ∧ e.preAnchor = true ∧
       perform_connect s env = (Except.error e, s, [])) ∨
    (∃ i a, s.device_id = some i ∧
       perform_connect s env =
         (Except.error (ConnectError.anchor a),
          { s with connection := some { id := i }, device_id := some i },
          [Ev.logLine "[CONN]"])) ∨
    (∃ i, s.device_id = some i ∧
       perform_connect s env =
         (Except.ok (), connectedState s i env.avrtOk,
          [Ev.logLine "[CONN]", Ev.setMonitoring false, Ev.setMonitoring true,
           Ev.spawnMonitor])) := by
  obtain ⟨c1, c2, c3, c4, st, anch, av⟩ := env
  cases hd : s.device_id with
  | none => exact Or.inl ⟨rfl, by simp [perform_connect, hd]⟩
  | some i =>
    simp only [perform_connect, hd]
    cases c1 with
    | false => exact Or.inr (Or.inl ⟨i, ConnectError.tryCreateFailed, rfl, rfl, rfl⟩)
    | true =>
    cases c2 with
    | false => exact Or.inr (Or.inl ⟨i, ConnectError.connStartFailed, rfl, rfl, rfl⟩)
    | true =>
    cases c3 with
    | false => exact Or.inr (Or.inl ⟨i, ConnectError.openAsyncFailed, rfl, rfl, rfl⟩)
    | true =>
    cases c4 with
    | false => exact Or.inr (Or.inl ⟨i, ConnectError.statusCallFailed, rfl, rfl, rfl⟩)
    | true =>
    cases st with
    | requestTimedOut =>
        exact Or.inr (Or.inl ⟨i, ConnectError.openFailed OpenStatus.requestTimedOut,
          rfl, rfl, rfl⟩)
    | deniedBySystem =>
        exact Or.inr (Or.inl ⟨i, ConnectError.openFailed OpenStatus.deniedBySystem,
          rfl, rfl, rfl⟩)
    | unknownFailure =>
        exact Or.inr (Or.inl ⟨i, ConnectError.openFailed OpenStatus.unknownFailure,
          rfl, rfl, rfl⟩)
    | success =>
      rcases prevent_sleep_spec
          { s with connection := some { id := i }, device_id := some i } anch with
        ⟨a, hps⟩ | hps
      · refine Or.inr (Or.inr (Or.inl ⟨i, a, rfl, ?_⟩))
        simp only [hps]
        rfl
      · refine Or.inr (Or.inr (Or.inr ⟨i, rfl, ?_⟩))
        simp only [hps]
        cases av <;> rfl

lemma connect_unfold (s : BTReceiver) (d : BTDevice) (env : ConnectEnv) (i : DeviceId)
    (h : d.info.idResult = some i) :
    connect s d env =
      ((perform_connect { s with device_id := some i } env).1,
       (perform_connect { s with device_id := some i } env).2.1,
       Ev.logLine ("[INIT] connect " ++ d.name) ::
         (perform_connect { s with device_id := some i } env).2.2) := by
  simp only [connect, h]

lemma reconnect_unfold (s : BTReceiver) (d : BTDevice) (env : ConnectEnv) :
    reconnect s d env =
      ((match (perform_connect (disconnect s).1 env).1 with
        | Except.error e => Except.error (ConnectError.wrapped e)
        | Except.ok _ => Except.ok ()),
       (perform_connect (disconnect s).1 env).2.1,
       Ev.logLine ("[INIT] reconnect " ++ d.name) ::
         ((disconnect s).2 ++ (perform_connect (disconnect s).1 env).2.2)) := by
  simp only [reconnect]
  rcases h : perform_connect (disconnect s).1 env with ⟨r1, s', t⟩
  cases r1 <;> rfl

lemma preAnchor_ne_idMissing {e : ConnectError} (h : e.preAnchor = true) :
    e ≠ ConnectError.idMissing := by
  intro he
  subst he
  simp [ConnectError.preAnchor] at h

lemma evLogs_countNoneStatus (l : List Ev) : countNoneStatus (evLogs l) = 0 := by
  induction l with
  | nil => rfl
  | cons e rest ih => cases e <;> simpa [evLogs, countNoneStatus] using ih

lemma countNoneStatus_append (a b : List WEv) :
    countNoneStatus (a ++ b) = countNoneStatus a + countNoneStatus b := by
  induction a with
  | nil => simp [countNoneStatus]
  | cons e rest ih =>
    match e with
    | WEv.deviceList _ => simpa [countNoneStatus] using ih
    | WEv.log _ => simpa [countNoneStatus] using ih
    | WEv.statusEvent none => simp [countNoneStatus, ih]; omega
    | WEv.statusEvent (some _) => simpa [countNoneStatus] using ih

lemma disconnect_device_id (s : BTReceiver) :
    (disconnect s).1.device_id = s.device_id := by
  rw [disconnect_fst]

/-! ## Claim C1 -/

/-- C1 counterexample: the claim "after a successful `reconnect(d)` the
stored identifier and the opened connection are those of the device `d`"
is false.  A receiver connected to the device with identifier `"idB"`, on
`reconnect(Speaker-A)` (identifier `"idA"`) with every platform call
succeeding, succeeds yet keeps identifier `"idB"` and opens a connection to
`"idB"` — `reconnect` never stores `d`'s identifier. -/
theorem C1_reconnect_ignores_new_device_counterexample :
    (reconnect sConnB devA envAllOk).1 = Except.ok () ∧
    devA.info.idResult = some "idA" ∧
    (reconnect sConnB devA envAllOk).2.1.device_id = some "idB" ∧
    (reconnect sConnB devA envAllOk).2.1.connection = some { id := "idB" } ∧
    ("idB" : DeviceId) ≠ "idA" := by
  refine ⟨rfl, rfl, rfl, rfl, by decide⟩

/-- C1 (amended): `reconnect(d)` always performs `disconnect()` first, then
the internal connect step, but that step reuses the PREVIOUSLY stored
identifier — `d`'s identifier is never stored.  Consequently the stored
identifier is unchanged by `reconnect`; with no identifier ever stored it
fails with the wrapped `IdentifierMissing` error; on success the opened
connection is to the previously stored identifier; and it coincides with
`disconnect()` followed by `connect(d)` (same final state) precisely when
the stored identifier already is `d`'s identifier. -/
theorem C1_reconnect_reuses_stored_identifier
    (s : BTReceiver) (d : BTDevice) (env : ConnectEnv) :
    (reconnect s d env).2.1.device_id = s.device_id ∧
    (reconnect s d env).2.2 =
      Ev.logLine ("[INIT] reconnect " ++ d.name) ::
        ((disconnect s).2 ++ (perform_connect (disconnect s).1 env).2.2) ∧
    (s.device_id = none →
      (reconnect s d env).1 =
        Except.error (ConnectError.wrapped ConnectError.idMissing)) ∧
    (∀ i, s.device_id = some i → (reconnect s d env).1 = Except.ok () →
      (reconnect s d env).2.1.connection = some { id := i }) ∧
    (∀ i, s.device_id = some i → d.info.idResult = some i →
      (reconnect s d env).2.1 = (connect (disconnect s).1 d env).2.1) := by
  have hdid := disconnect_device_id s
  rw [reconnect_unfold]
  have heq : ∀ i, s.device_id = some i →
      ({ (disconnect s).1 with device_id := some i } : BTReceiver) =
        (disconnect s).1 := by
    intro i hi
    rw [← hdid] at hi
    rw [← hi]
  rcases perform_connect_spec (disconnect s).1 env with
    ⟨h1, h2⟩ | ⟨i, e, h1, hpre, h2⟩ | ⟨i, a, h1, h2⟩ | ⟨i, h1, h2⟩
  · rw [hdid] at h1
    refine ⟨by simp [h2, hdid], by simp [h2], fun _ => by simp [h2], ?_, ?_⟩
    · intro i hi
      rw [hi] at h1
      exact absurd h1 (by simp)
    · intro i hi
      rw [hi] at h1
      exact absurd h1 (by simp)
  · rw [hdid] at h1
    refine ⟨by simp [h2, hdid], by simp [h2], ?_, ?_, ?_⟩
    · intro hn
      rw [hn] at h1
      exact absurd h1 (by simp)
    · intro j hj hok
      rw [h2] at hok
      simp at hok
    · intro j hj hd
      rw [connect_unfold (disconnect s).1 d env j hd, heq j hj]
  · rw [hdid] at h1
    refine ⟨by simp [h2, h1.symm], by simp [h2], ?_, ?_, ?_⟩
    · intro hn
      rw [hn] at h1
      exact absurd h1 (by simp)
    · intro j hj hok
      rw [h2] at hok
      simp at hok
    · intro j hj hd
      rw [connect_unfold (disconnect s).1 d env j hd, heq j hj]
  · rw [hdid] at h1
    refine ⟨by simp [h2, connectedState, h1.symm], by simp [h2], ?_, ?_, ?_⟩
    · intro hn
      rw [hn] at h1
      exact absurd h1 (by simp)
    · intro j hj _
      rw [h1] at hj
      obtain rfl := Option.some.inj hj
      simp [h2, connectedState]
    · intro j hj hd
      rw [connect_unfold (disconnect s).1 d env j hd, heq j hj]

/-- C1 witness: the amended theorem applied at a never-connected receiver:
`reconnect` fails with the wrapped `IdentifierMissing` error. -/
theorem C1_reconnect_reuses_stored_identifier_witness :
    (reconnect BTReceiver.new devA envAllOk).1 =
      Except.error (ConnectError.wrapped ConnectError.idMissing) :=
  (C1_reconnect_reuses_stored_identifier BTReceiver.new devA envAllOk).2.2.1 rfl

/-! ## Claim C2 -/

/-- C2 counterexample: the claim "whenever `connect(d)` returns an error no
open connection is retained in the state" is false.  From a fresh receiver,
`connect(Speaker-A)` in an environment where the platform open succeeds but
the anchor acquisition's final `graph.Start()` fails returns an error, yet
the opened platform connection is still stored in the receiver (and the
stored identifier is kept as well). -/
theorem C2_error_retains_connection_counterexample :
    (connect BTReceiver.new devA envAnchorFail).1 =
      Except.error (ConnectError.anchor AnchorError.graphStartFailed) ∧
    (connect BTReceiver.new devA envAnchorFail).2.1.connection =
      some { id := "idA" } ∧
    (connect BTReceiver.new devA envAnchorFail).2.1.device_id = some "idA" :=
  ⟨rfl, rfl, rfl⟩

/-- C2 (amended): a failed `connect`/`reconnect` acquires no anchor and
starts no monitor, and a failed `reconnect` always ends with no anchor held
and the monitor flag clear; but the partial effects are NOT all rolled
back: when the failure occurs during anchor acquisition (after the platform
open succeeded) the opened connection remains stored, and the stored
identifier is always retained.  For `connect` the same holds when starting
from a state holding no anchor and no running monitor. -/
theorem C2_error_leaves_no_anchor_no_monitor
    (s : BTReceiver) (d : BTDevice) (env : ConnectEnv) :
    (∀ e, (reconnect s d env).1 = Except.error e →
      (reconnect s d env).2.1.graph = none ∧
      (reconnect s d env).2.1.is_monitoring = false ∧
      ((reconnect s d env).2.1.connection = none ∨
        ∃ a, e = ConnectError.wrapped (ConnectError.anchor a))) ∧
    (s.graph = none → s.is_monitoring = false →
      ∀ e, (connect s d env).1 = Except.error e →
        (connect s d env).2.1.graph = none ∧
        (connect s d env).2.1.is_monitoring = false ∧
        ((connect s d env).2.1.connection = s.connection ∨
          ∃ a, e = ConnectError.anchor a)) := by
  constructor
  · rw [reconnect_unfold]
    rcases perform_connect_spec (disconnect s).1 env with
      ⟨h1, h2⟩ | ⟨i, e', h1, hpre, h2⟩ | ⟨i, a, h1, h2⟩ | ⟨i, h1, h2⟩
    · intro e he
      refine ⟨?_, ?_, Or.inl ?_⟩ <;> rw [h2, disconnect_fst]
    · intro e he
      refine ⟨?_, ?_, Or.inl ?_⟩ <;> rw [h2, disconnect_fst]
    · intro e he
      rw [h2] at he
      simp at he
      refine ⟨?_, ?_, Or.inr ⟨a, he.symm⟩⟩
      · simp [h2]
        rw [disconnect_fst]
      · simp [h2]
        rw [disconnect_fst]
    · intro e he
      rw [h2] at he
      simp at he
  · intro hg hm
    cases hi : d.info.idResult with
    | none =>
      intro e he
      simp only [connect, hi] at he ⊢
      exact ⟨hg, hm, Or.inl (by trivial)⟩
    | some i =>
      rw [connect_unfold s d env i hi]
      rcases perform_connect_spec { s with device_id := some i } env with
        ⟨h1, h2⟩ | ⟨j, e', h1, hpre, h2⟩ | ⟨j, a, h1, h2⟩ | ⟨j, h1, h2⟩
      · exact absurd h1 (by simp)
      · intro e he
        refine ⟨?_, ?_, Or.inl ?_⟩
        · rw [h2]; exact hg
        · rw [h2]; exact hm
        · rw [h2]
      · intro e he
        rw [h2] at he
        simp at he
        refine ⟨?_, ?_, Or.inr ⟨a, he.symm⟩⟩
        · rw [h2]; exact hg
        · rw [h2]; exact hm
      · intro e he
        rw [h2] at he
        simp at he

/-- C2 witness: the amended theorem applied at the connected fixture with
`TryCreateFromId` failing: the failed `reconnect` ends with no anchor, a
clear monitor flag and no stored connection. -/
theorem C2_error_leaves_no_anchor_no_monitor_witness :
    (reconnect sConnB devA envTryFail).2.1.graph = none ∧
    (reconnect sConnB devA envTryFail).2.1.is_monitoring = false := by
  have h := (C2_error_leaves_no_anchor_no_monitor sConnB devA envTryFail).1
    (ConnectError.wrapped ConnectError.tryCreateFailed) rfl
  exact ⟨h.1, h.2.1⟩

/-! ## Claim C3 -/

/-- C3 counterexample: the claim "the anchor is released (stopped then
closed) on every exit from `Connected`, including a new connect issued
while already Connected" is false.  A `connect(Speaker-A)` issued while
connected to `"idB"` and holding the anchor succeeds, replacing the prior
connection — yet its whole event trace contains neither `graph.Stop()` nor
`graph.Close()`: the prior anchor is overwritten, never torn down.  (The
"priority handle iff Connected" part also fails: its acquisition is
best-effort.) -/
theorem C3_connect_while_connected_counterexample :
    sConnB.graph = some () ∧
    sConnB.connection = some { id := "idB" } ∧
    (connect sConnB devA envAllOk).1 = Except.ok () ∧
    (connect sConnB devA envAllOk).2.1.connection = some { id := "idA" } ∧
    Ev.graphStop ∉ (connect sConnB devA envAllOk).2.2 ∧
    Ev.graphClose ∉ (connect sConnB devA envAllOk).2.2 := by
  refine ⟨rfl, rfl, rfl, rfl, by decide, by decide⟩

/-- C3 (amended): on the disconnect-based exits from `Connected` (a direct
`disconnect` or any `reconnect`) the anchor and the priority handle are
indeed always released, the anchor being stopped then closed; but a direct
`connect` issued while already `Connected` does not tear the prior anchor
down first (see the counterexample), and the priority handle may be absent
even while `Connected` since its acquisition is best-effort. -/
theorem C3_anchor_released_on_disconnect_exits (s : BTReceiver) :
    (disconnect s).1.graph = none ∧
    (disconnect s).1.avrt_handle = none ∧
    (s.graph = some () →
      (disconnect s).2 =
        [Ev.setMonitoring false, Ev.graphStop, Ev.graphClose,
         Ev.logLine "[DISCONN]"]) ∧
    (∀ (d : BTDevice) (env : ConnectEnv), s.graph = some () →
      Ev.graphStop ∈ (reconnect s d env).2.2 ∧
      Ev.graphClose ∈ (reconnect s d env).2.2) := by
  refine ⟨by rw [disconnect_fst], by rw [disconnect_fst], ?_, ?_⟩
  · intro hg
    rw [disconnect_snd, if_pos hg]
  · intro d env hg
    rw [reconnect_unfold]
    simp [disconnect_snd, hg]

/-- C3 witness: the amended theorem applied at the connected fixture. -/
theorem C3_anchor_released_on_disconnect_exits_witness :
    (disconnect sConnB).2 =
      [Ev.setMonitoring false, Ev.graphStop, Ev.graphClose,
       Ev.logLine "[DISCONN]"] ∧
    Ev.graphStop ∈ (reconnect sConnB devA envAllOk).2.2 := by
  have h := C3_anchor_released_on_disconnect_exits sConnB
  exact ⟨h.2.2.1 rfl, (h.2.2.2 devA envAllOk rfl).1⟩

/-! ## Claim C4 -/

/-- C4: the claim "at most one heartbeat monitor task is live at every
reachable state, because starting a new monitor signals cancellation of any
predecessor before spawning" fails on the code: `start_heartbeat_monitor`
stores `false` and then immediately `true` into the ONE shared
`Arc<AtomicBool>` (the flag is cloned, never replaced), so a predecessor
that next reads the flag reads `true` and keeps looping.  Concretely: after
two successful connects (no monitor wake-up between the two adjacent
stores, a legal schedule), the reached state has TWO live monitor tasks,
and the first task's next flag check leaves it live.  This contradicts the
code's own comment at line 83 ("stop the previous monitor"). -/
theorem C4_two_live_monitors_reachable :
    MonReach (taskCheck (sigStartMonitor (sigStartMonitor MonSys.init)) 0) ∧
    liveCount (taskCheck (sigStartMonitor (sigStartMonitor MonSys.init)) 0) = 2 ∧
    taskCheck (taskCheck (sigStartMonitor (sigStartMonitor MonSys.init)) 0) 0 =
      taskCheck (sigStartMonitor (sigStartMonitor MonSys.init)) 0 :=
  ⟨MonReach.check 0 (MonReach.start (MonReach.start MonReach.init)),
   by decide, by decide⟩

/-! ## Claim C7 -/

/-- C7 counterexample: the claim "for every T, the number of heavy
keepalives performed in T intervals equals floor(T / 15), and on every
other tick the lightweight keepalive is performed" is false as stated: the
keepalive calls are issued only when the per-tick
`AudioPlaybackConnection::TryCreateFromId` succeeds (line 99).  In a run of
15 intervals in which that platform call always fails, zero heavy
keepalives are performed although floor(15/15) = 1, and non-multiple ticks
perform no lightweight keepalive either. -/
theorem C7_keepalive_counterexample :
    heavyCount (fun _ => false) 15 = 0 ∧
    (0 : Nat) ≠ 15 / 15 ∧
    monitorTick (fun _ => false) 3 = [] := by
  refine ⟨by decide, by decide, by decide⟩

/-- C7 (amended): provided the per-tick platform connection creation
succeeds, a monitor that runs `T` intervals without cancellation performs
exactly `T / 15` heavy keepalives; a heavy keepalive happens exactly on the
ticks with `tick % 15 == 0` (the lightweight `Start` is issued first on
those ticks too), and every other tick performs only the lightweight
keepalive. -/
theorem C7_heavy_keepalive_every_15_ticks
    (createOk : Nat → Bool) (T : Nat) (h : ∀ k, createOk k = true) :
    heavyCount createOk T = T / 15 ∧
    (∀ k, k % 15 = 0 → monitorTick createOk k = [KeepAct.light, KeepAct.heavy]) ∧
    (∀ k, ¬ k % 15 = 0 → monitorTick createOk k = [KeepAct.light]) := by
  refine ⟨?_, ?_, ?_⟩
  · induction T with
    | zero => rfl
    | succ T ih =>
      rw [heavyCount, monitorRun, List.count_append]
      rw [heavyCount] at ih
      rw [ih, Nat.succ_div]
      by_cases hmod : (T + 1) % 15 = 0
      · rw [if_pos (Nat.dvd_iff_mod_eq_zero.mpr hmod)]
        simp [monitorTick, h (T + 1), hmod]
      · rw [if_neg (fun hd => hmod (Nat.dvd_iff_mod_eq_zero.mp hd))]
        have : ((T + 1) % 15 == 0) = false := by
          simpa using hmod
        simp [monitorTick, h (T + 1), this]
  · intro k hk
    simp [monitorTick, h k, hk]
  · intro k hk
    have : (k % 15 == 0) = false := by simpa using hk
    simp [monitorTick, h k, this]

/-- C7 witness: a 45-interval run with the platform call always succeeding
performs exactly 3 heavy keepalives; tick 30 performs light then heavy,
tick 7 only light. -/
theorem C7_heavy_keepalive_every_15_ticks_witness :
    heavyCount (fun _ => true) 45 = 45 / 15 ∧
    monitorTick (fun _ => true) 30 = [KeepAct.light, KeepAct.heavy] ∧
    monitorTick (fun _ => true) 7 = [KeepAct.light] := by
  have h := C7_heavy_keepalive_every_15_ticks (fun _ => true) 45 (fun _ => rfl)
  exact ⟨h.1, h.2.1 30 (by decide), h.2.2 7 (by decide)⟩

/-! ## Claim C5 -/

/-- C5 counterexample: the claim that `disconnect()` "clears the stored
device identifier" is false: disconnecting the connected fixture leaves
`device_id` at `some "idB"`.  (Clearing it would in fact break `reconnect`,
which relies on the stored identifier after its internal `disconnect`.) -/
theorem C5_disconnect_keeps_identifier_counterexample :
    (disconnect sConnB).1.device_id = some "idB" ∧
    some "idB" ≠ (none : Option DeviceId) := by
  refine ⟨rfl, by decide⟩

/-- C5 (amended): `disconnect()` is total (it returns no error by type) and
always: signals cancellation to the heartbeat monitor, releases the anchor
resource and the priority handle if held (the anchor stopped then closed),
and leaves the state Disconnected — but it RETAINS the stored device
identifier rather than clearing it. -/
theorem C5_disconnect_total_releases_keeps_identifier (s : BTReceiver) :
    (disconnect s).1 =
      { s with connection := none, graph := none, is_monitoring := false,
               avrt_handle := none } ∧
    (disconnect s).1.device_id = s.device_id ∧
    Ev.setMonitoring false ∈ (disconnect s).2 ∧
    (s.graph = some () →
      (disconnect s).2 =
        [Ev.setMonitoring false, Ev.graphStop, Ev.graphClose,
         Ev.logLine "[DISCONN]"]) := by
  refine ⟨disconnect_fst s, disconnect_device_id s, ?_, ?_⟩
  · rw [disconnect_snd]
    by_cases hg : s.graph = some () <;> simp [hg]
  · intro hg
    rw [disconnect_snd, if_pos hg]

/-- C5 witness: the amended theorem applied at the connected fixture. -/
theorem C5_disconnect_total_releases_keeps_identifier_witness :
    (disconnect sConnB).1 =
      { sConnB with connection := none, graph := none, is_monitoring := false,
                    avrt_handle := none } ∧
    (disconnect sConnB).2 =
      [Ev.setMonitoring false, Ev.graphStop, Ev.graphClose,
       Ev.logLine "[DISCONN]"] := by
  have h := C5_disconnect_total_releases_keeps_identifier sConnB
  exact ⟨h.1, h.2.2.2 rfl⟩

/-! ## Claim C6 -/

/-- C6: calling `disconnect()` twice is equivalent to calling it once: the
second call reproduces the same final state, releases no resource (its
trace contains no `graph.Stop`/`graph.Close`), and emits no
`ConnectionStatus`/`DeviceList` event (receiver-level `disconnect` emits
none at all); on an already-Disconnected receiver `disconnect()` leaves the
state exactly unchanged. -/
theorem C6_disconnect_idempotent (s : BTReceiver) :
    (disconnect (disconnect s).1).1 = (disconnect s).1 ∧
    (disconnect (disconnect s).1).2 =
      [Ev.setMonitoring false, Ev.logLine "[DISCONN]"] ∧
    Ev.graphStop ∉ (disconnect (disconnect s).1).2 ∧
    Ev.graphClose ∉ (disconnect (disconnect s).1).2 ∧
    (s.connection = none → s.graph = none → s.is_monitoring = false →
      s.avrt_handle = none → (disconnect s).1 = s) := by
  have hg1 : (disconnect s).1.graph = none := by rw [disconnect_fst]
  refine ⟨?_, ?_, ?_, ?_, ?_⟩
  · rw [disconnect_fst, disconnect_fst]
  · rw [disconnect_snd, if_neg (by rw [hg1]; intro h; cases h)]
  · rw [disconnect_snd, if_neg (by rw [hg1]; intro h; cases h)]
    decide
  · rw [disconnect_snd, if_neg (by rw [hg1]; intro h; cases h)]
    decide
  · intro h1 h2 h3 h4
    rw [disconnect_fst]
    cases s
    simp only at h1 h2 h3 h4
    simp [h1, h2, h3, h4]

/-- C6 witness: idempotence at the connected fixture, and no-op behaviour
on the fresh (already Disconnected) receiver. -/
theorem C6_disconnect_idempotent_witness :
    (disconnect (disconnect sConnB).1).1 = (disconnect sConnB).1 ∧
    (disconnect BTReceiver.new).1 = BTReceiver.new := by
  exact ⟨(C6_disconnect_idempotent sConnB).1,
    (C6_disconnect_idempotent BTReceiver.new).2.2.2.2 rfl rfl rfl rfl⟩

/-! ## Claim C8 -/

/-- C8 counterexample: the claim that for an absent display name "the
command's only effect is a log line (DeviceNotFound)" is false: with the
directory listing `[Speaker-A, Speaker-B]`, the command
`Connect("Speaker-Z")` leaves the state unchanged and emits NOTHING — the
event/log stream is empty, containing no log line at all (the worker's
not-found branch has no logging statement). -/
theorem C8_absent_device_counterexample :
    workerStep sConnB (AppCommand.Connect "Speaker-Z") wenvAB = (sConnB, []) ∧
    (workerStep sConnB (AppCommand.Connect "Speaker-Z") wenvAB).2.countP isLogEv
      = 0 := by
  refine ⟨by decide, by decide⟩

/-- C8 (amended): for every `Connect` or `Reconnect` command whose display
name matches no device in the fresh directory listing, the worker leaves
the receiver state completely unchanged and emits no event and no log line
whatsoever: the command is dropped with no observable effect at all. -/
theorem C8_absent_device_drops_command
    (s : BTReceiver) (name : String) (env : WorkerEnv)
    (h : ∀ d ∈ env.listResult.getD [], d.name ≠ name) :
    workerStep s (AppCommand.Connect name) env = (s, []) ∧
    workerStep s (AppCommand.Reconnect name) env = (s, []) := by
  have hfind : (env.listResult.getD []).find? (fun d => d.name == name) = none := by
    rw [List.find?_eq_none]
    intro d hd hbeq
    exact h d hd (eq_of_beq hbeq)
  constructor <;> simp [workerStep, hfind]

/-- C8 witness: the amended theorem at the concrete absent name. -/
theorem C8_absent_device_drops_command_witness :
    workerStep sConnB (AppCommand.Reconnect "Speaker-Z") wenvAB = (sConnB, []) :=
  (C8_absent_device_drops_command sConnB "Speaker-Z" wenvAB (by decide)).2

/-! ## Claim C9 -/

/-- C9: `connect(d)` stores `d`'s identifier before attempting the platform
open, so `connect` can never return the `IdentifierMissing` error, for any
device and platform environment; `reconnect` returns (the wrapped)
`IdentifierMissing` exactly when the stored identifier is `none`; and the
identifier, once stored by a `connect`, is never cleared — in particular
`disconnect` preserves it — so `IdentifierMissing` can arise only on a
receiver whose identifier was never set by a prior connect. -/
theorem C9_idMissing_only_without_prior_connect
    (s : BTReceiver) (d : BTDevice) (env : ConnectEnv) :
    (connect s d env).1 ≠ Except.error ConnectError.idMissing ∧
    ((reconnect s d env).1 =
        Except.error (ConnectError.wrapped ConnectError.idMissing) ↔
      s.device_id = none) ∧
    (∀ i, d.info.idResult = some i →
      (connect s d env).2.1.device_id = some i) ∧
    (disconnect s).1.device_id = s.device_id := by
  have hdid := disconnect_device_id s
  refine ⟨?_, ?_, ?_, hdid⟩
  · cases hi : d.info.idResult with
    | none => simp [connect, hi]
    | some i =>
      rw [connect_unfold s d env i hi]
      rcases perform_connect_spec { s with device_id := some i } env with
        ⟨h1, h2⟩ | ⟨j, e', h1, hpre, h2⟩ | ⟨j, a, h1, h2⟩ | ⟨j, h1, h2⟩
      · exact absurd h1 (by simp)
      · rw [h2]
        simp
        exact fun he => preAnchor_ne_idMissing hpre he
      · rw [h2]
        simp
      · rw [h2]
        simp
  · rw [reconnect_unfold]
    rcases perform_connect_spec (disconnect s).1 env with
      ⟨h1, h2⟩ | ⟨j, e', h1, hpre, h2⟩ | ⟨j, a, h1, h2⟩ | ⟨j, h1, h2⟩
    · rw [hdid] at h1
      rw [h2]
      simpa using h1
    · rw [hdid] at h1
      rw [h2]
      constructor
      · intro hw
        simp at hw
        exact absurd hw (preAnchor_ne_idMissing hpre)
      · intro hn
        rw [hn] at h1
        exact absurd h1 (by simp)
    · rw [hdid] at h1
      rw [h2]
      constructor
      · intro hw
        simp at hw
      · intro hn
        rw [hn] at h1
        exact absurd h1 (by simp)
    · rw [hdid] at h1
      rw [h2]
      constructor
      · intro hw
        simp at hw
      · intro hn
        rw [hn] at h1
        exact absurd h1 (by simp)
  · intro i hi
    rw [connect_unfold s d env i hi]
    rcases perform_connect_spec { s with device_id := some i } env with
      ⟨h1, h2⟩ | ⟨j, e', h1, hpre, h2⟩ | ⟨j, a, h1, h2⟩ | ⟨j, h1, h2⟩
    · exact absurd h1 (by simp)
    · rw [h2]
    · rw [h2]
      have : j = i := by simpa using h1.symm
      simp [this]
    · rw [h2]
      have : j = i := by simpa using h1.symm
      simp [connectedState, this]

/-- C9 witness: at concrete inputs — `reconnect` on a fresh receiver fails
with the wrapped `IdentifierMissing`, and a `connect` whose platform create
fails still stores the device's identifier. -/
theorem C9_idMissing_only_without_prior_connect_witness :
    (reconnect BTReceiver.new devA envAllOk).1 =
      Except.error (ConnectError.wrapped ConnectError.idMissing) ∧
    (connect sConnB devA envTryFail).2.1.device_id = some "idA" := by
  refine ⟨?_, ?_⟩
  · exact (C9_idMissing_only_without_prior_connect
      BTReceiver.new devA envAllOk).2.1.mpr rfl
  · exact (C9_idMissing_only_without_prior_connect
      sConnB devA envTryFail).2.2.1 "idA" rfl

/-! ## Claim C10 -/

/-- C10: for every `Disconnect` command the worker emits exactly one
`ConnectionStatus(None)` event, unconditionally — the send is not guarded
by the receiver's state, so it happens also when already Disconnected — and
hence a run of `n` consecutive `Disconnect` commands (under arbitrary
per-command environments, from an arbitrary starting state) emits exactly
`n` `ConnectionStatus(None)` events. -/
theorem C10_disconnect_always_emits_none_status
    (s : BTReceiver) (envs : List WorkerEnv) :
    countNoneStatus
        (workerRun s (envs.map fun e => (AppCommand.Disconnect, e))).2 =
      envs.length ∧
    ∀ env : WorkerEnv,
      (workerStep s AppCommand.Disconnect env).2 =
        evLogs (disconnect s).2 ++ [WEv.statusEvent none] := by
  constructor
  · induction envs generalizing s with
    | nil => rfl
    | cons e rest ih =>
      show countNoneStatus
          ((workerStep s AppCommand.Disconnect e).2 ++
            (workerRun (workerStep s AppCommand.Disconnect e).1
              (rest.map fun e => (AppCommand.Disconnect, e))).2) = rest.length + 1
      rw [countNoneStatus_append, ih]
      show countNoneStatus
          (evLogs (disconnect s).2 ++ [WEv.statusEvent none]) + rest.length
        = rest.length + 1
      rw [countNoneStatus_append, evLogs_countNoneStatus]
      simp [countNoneStatus]
      omega
  · intro env
    rfl

end BTAudio
